import Mathlib

/-!
Verification development for the gatekeeper repository.

The repository holds two small test doubles for an embedded gate controller:

* `src/scripts/udpServerSim.py` — a UDP responder: an unbounded blocking
  receive loop that, for each inbound datagram, sends the single byte `0x01`
  to the sender, sleeps 0.5 seconds, then sends the single byte `0x00` to the
  same sender.
* `src/gatekeeper-pwa/scripts/api-simulator.py` — an HTTP responder built on
  Python's `http.server.BaseHTTPRequestHandler`: `do_POST` answers
  `POST /trigger` with `200 OK` plus CORS headers and otherwise calls
  `send_error(404)`; `do_OPTIONS` answers `200` with CORS headers and an
  empty body.

Both are embedded shallowly below.  Time is modelled in milliseconds on a
virtual clock; network sends are recorded as explicit events.
-/

/-- A sender address as Python's UDP `recvfrom` reports it: an IP string and
a port number. -/
structure Addr where
  ip : String
  port : Nat
deriving DecidableEq

/-- An inbound UDP datagram: the sender address and the raw payload bytes. -/
structure Datagram where
  addr : Addr
  payload : List Nat
deriving DecidableEq

/-- An outbound UDP send event: destination address, the single byte sent,
and the virtual time (ms) at which `sendto` runs. -/
structure Send where
  dest : Addr
  byte : Nat
  time : Nat
deriving DecidableEq

/-- Console log lines emitted by the UDP receive loop, one constructor per
`print` call in the loop body of `udpServerSim.py`. -/
inductive LogLine where
  | recvd (a : Addr) (hex : String) (t : Nat)
  | sentActivated (a : Addr) (t : Nat)
  | sentReleased (a : Addr) (t : Nat)
deriving DecidableEq

/-- The delay `time.sleep(0.5)` between the two sends in
`udpServerSim.py`, in milliseconds. -/
def udpDelayMs : Nat := 500

/-- The delay the docstring of `udpServerSim.py` describes: the header
comment says the `0x00` reply is sent "one second later". -/
def docstringDelayMs : Nat := 1000

/-- Hex digit character, as Python's `bytes.hex` produces (lowercase). -/
def hexDigit (n : Nat) : Char :=
  if n < 10 then Char.ofNat (48 + n) else Char.ofNat (87 + n)

/-- Two lowercase hex digits for one byte, as in Python's `bytes.hex`. -/
def byteHex (b : Nat) : List Char :=
  [hexDigit (b / 16), hexDigit (b % 16)]

/-- Python's `data.hex()`: the payload rendered as lowercase hex. -/
def bytesHex (p : List Nat) : String :=
  String.mk (p.flatMap byteHex)

/-- One iteration of the receive loop of `udpServerSim.py`, entered at
virtual time `t` with datagram `d` already read off the socket:
log the receipt, `sendto(b"\x01", addr)`, log it, `time.sleep(0.5)`,
`sendto(b"\x00", addr)`, log it.  Returns the send events, the log lines,
and the clock when the loop returns to `recvfrom`. -/
def udpStep (t : Nat) (d : Datagram) : List Send × List LogLine × Nat :=
  ([⟨d.addr, 1, t⟩, ⟨d.addr, 0, t + udpDelayMs⟩],
   [LogLine.recvd d.addr (bytesHex d.payload) t,
    LogLine.sentActivated d.addr t,
    LogLine.sentReleased d.addr (t + udpDelayMs)],
   t + udpDelayMs)

/-- The receive loop of `udpServerSim.py` run over a finite schedule of
inbound datagrams, each paired with its arrival time at the socket.
`recvfrom` blocks, so datagram `i+1` is read only when it has arrived and
the previous iteration (including its sleep) has finished: it is read at
the later of its arrival time and the loop's current clock.  Returns the
send events in the order `sendto` runs. -/
def udpRun (t : Nat) : List (Nat × Datagram) → List Send
  | [] => []
  | (ta, d) :: rest =>
      (udpStep (max t ta) d).1 ++ udpRun (udpStep (max t ta) d).2.2 rest

example : udpRun 0 [(0, ⟨⟨"h", 9⟩, [5]⟩)] =
    [⟨⟨"h", 9⟩, 1, 0⟩, ⟨⟨"h", 9⟩, 0, 500⟩] := by decide

example : udpRun 0 [(0, ⟨⟨"h", 9⟩, [5]⟩), (100, ⟨⟨"g", 7⟩, []⟩)] =
    [⟨⟨"h", 9⟩, 1, 0⟩, ⟨⟨"h", 9⟩, 0, 500⟩,
     ⟨⟨"g", 7⟩, 1, 500⟩, ⟨⟨"g", 7⟩, 0, 1000⟩] := by decide

/-- The prefix of a character list strictly before the first occurrence of
`c` (the whole list when `c` does not occur).  This is the "keep the part
before the separator" half of Python's `url.split(sep, 1)`. -/
def takeUntil (c : Char) : List Char → List Char
  | [] => []
  | x :: xs => if x = c then [] else x :: takeUntil c xs

/-- Split a character list at the last occurrence of `c`: returns the part
before and the part after that occurrence, or `none` when `c` does not
occur.  Used to find the last path segment, as `url.rfind` does in
`urllib.parse`. -/
def splitLast (c : Char) : List Char → Option (List Char × List Char)
  | [] => none
  | x :: xs =>
      match splitLast c xs with
      | some (a, b) => some (x :: a, b)
      | none => if x = c then some ([], xs) else none

/-- Python's `urllib.parse` parameter stripping (the `splitparams` step of
`urlparse`): cut the path at the first semicolon occurring in the last
path segment, i.e. at the first semicolon after the last slash, or at the
first semicolon at all when the path has no slash. -/
def dropParams (u : List Char) : List Char :=
  match splitLast '/' u with
  | some (a, b) => a ++ '/' :: takeUntil ';' b
  | none => takeUntil ';' u

/-- Split a character list at the first occurrence of `c`: the part
before and the part after that occurrence, or `none` when `c` does not
occur.  This is Python's `url.find(c)` plus the two slices around the
found position. -/
def splitFirst (c : Char) : List Char → Option (List Char × List Char)
  | [] => none
  | x :: xs =>
      if x = c then some ([], xs)
      else
        match splitFirst c xs with
        | some (a, b) => some (x :: a, b)
        | none => none

/-- The characters `urllib.parse.scheme_chars` allows in a URL scheme:
ASCII letters, digits, plus, minus, and dot. -/
def schemeChars : List Char :=
  ("abcdefghijklmnopqrstuvwxyzABCDEFGHIJKLMNOPQRSTUVWXYZ0123456789+-.").toList

/-- Whether a character is an ASCII letter, as `urlsplit` requires of the
first character of a scheme. -/
def isAsciiAlpha (c : Char) : Bool :=
  ('a' ≤ c && c ≤ 'z') || ('A' ≤ c && c ≤ 'Z')

/-- The scheme-splitting step of `urlsplit`: when the URL has a colon at
a positive index, its first character is an ASCII letter, and every
character before the colon is a scheme character, the scheme and the
colon are cut off; otherwise the URL is left unchanged.  (Only the
remainder matters here; the lower-cased scheme itself is dropped.) -/
def dropScheme (url : List Char) : List Char :=
  match splitFirst ':' url with
  | none => url
  | some ([], _) => url
  | some (c0 :: before, after) =>
      if isAsciiAlpha c0 && (c0 :: before).all (fun c => schemeChars.contains c)
      then after else url

/-- The network-location step of `urlsplit` (its `_splitnetloc`): when
the URL starts with two slashes, everything after them up to the first
slash, question mark or hash sign is the netloc and is cut off, the
delimiter itself staying in the remainder; otherwise the URL is left
unchanged. -/
def dropNetloc : List Char → List Char
  | a :: b :: rest =>
      if a = '/' ∧ b = '/' then
        List.dropWhile (fun c => !(c = '/' || c = '?' || c = '#')) rest
      else a :: b :: rest
  | l => l

/-- The `path` component `urlparse(self.path).path` computes for an HTTP
request target: `urlsplit` cuts a scheme (colon-terminated, first
character an ASCII letter, all scheme characters), then a
network-location part after a leading double slash, then the fragment at
the first hash sign and the query at the first question mark, and
`urlparse` finally strips the parameters of the last path segment.  The
leading-whitespace stripping recent CPython adds is not modelled:
`BaseHTTPRequestHandler` splits the request line on whitespace, so
`self.path` can never contain (or start with) whitespace. -/
def urlparsePath (url : List Char) : List Char :=
  dropParams (takeUntil '?' (takeUntil '#' (dropNetloc (dropScheme url))))

example : urlparsePath ("/trigger?x=1").toList = ("/trigger").toList := by decide
example : urlparsePath ("/trigger#frag").toList = ("/trigger").toList := by decide
example : urlparsePath ("/trigger").toList = ("/trigger").toList := by decide
example : urlparsePath ("/other").toList = ("/other").toList := by decide
example : urlparsePath ("//evil/trigger").toList = ("/trigger").toList := by decide
example : urlparsePath ("///trigger").toList = ("/trigger").toList := by decide
example : urlparsePath ("x:/trigger").toList = ("/trigger").toList := by decide
example : urlparsePath ("x://evil/trigger").toList = ("/trigger").toList := by decide
example : urlparsePath ("/trig:ger").toList = ("/trig:ger").toList := by decide
example : urlparsePath ("9x:/y").toList = ("9x:/y").toList := by decide
example : urlparsePath ("//a/b;p?q").toList = ("/b").toList := by decide
example : urlparsePath ("//evil?q").toList = ([]) := by decide

/-- An HTTP request as the handler observes it: the request method, the
request target (the raw path string of the request line, `self.path`),
and the request body. -/
structure HttpRequest where
  method : String
  target : List Char
  body : String
deriving DecidableEq

/-- An HTTP response: status code, the headers the handler sets (the
`Server` and `Date` headers that `BaseHTTPRequestHandler` adds on its own
are not modelled), and the response body. -/
structure HttpResponse where
  status : Nat
  headers : List (String × String)
  body : String
deriving DecidableEq

/-- The three headers `send_cors_headers` sets in `api-simulator.py`. -/
def corsHeaders : List (String × String) :=
  [("Access-Control-Allow-Origin", "*"),
   ("Access-Control-Allow-Methods", "POST, OPTIONS"),
   ("Access-Control-Allow-Headers", "Content-Type")]

/-- The body of the HTML error page `BaseHTTPRequestHandler.send_error`
generates; the page is abstracted to its error-code and message content.
What matters for the development is that it is a non-empty error body. -/
def errorBody (code : Nat) (message : String) : String :=
  "Error response: Error code: " ++ toString code ++ " Message: " ++ message

/-- Models `BaseHTTPRequestHandler.send_error` from Python's
`http.server`: respond with the given status code, a `Content-Type:
text/html;charset=utf-8` header and a `Connection: close` header, and the
generated HTML error body.  No CORS headers are sent on this path. -/
def send_error (code : Nat) (message : String) : HttpResponse :=
  { status := code,
    headers := [("Content-Type", "text/html;charset=utf-8"),
                ("Connection", "close")],
    body := errorBody code message }

/-- `GatekeeperAPIHandler.handle_trigger`: after a 0.1 s processing sleep
(not modelled on a clock; no claim concerns HTTP timing), send status 200,
the CORS headers, `Content-Type: text/plain`, and body `OK`. -/
def handle_trigger (_r : HttpRequest) : HttpResponse :=
  { status := 200,
    headers := corsHeaders ++ [("Content-Type", "text/plain")],
    body := "OK" }

/-- `GatekeeperAPIHandler.do_POST`: parse the request target with
`urlparse`; if the path component is `/trigger`, run `handle_trigger`,
otherwise `send_error(404, "Endpoint not found")`. -/
def do_POST (r : HttpRequest) : HttpResponse :=
  if urlparsePath r.target = ("/trigger").toList then handle_trigger r
  else send_error 404 "Endpoint not found"

/-- `GatekeeperAPIHandler.do_OPTIONS`: send status 200, the CORS headers,
and end the headers with no body, for any request target. -/
def do_OPTIONS (_r : HttpRequest) : HttpResponse :=
  { status := 200, headers := corsHeaders, body := "" }

/-- Method dispatch of `BaseHTTPRequestHandler.handle_one_request` from
Python's `http.server`, applied to `GatekeeperAPIHandler`: the handler
class defines exactly `do_POST` and `do_OPTIONS`, and for any other
method the base class finds no `do_<METHOD>` attribute and answers
`send_error(501, "Unsupported method ...")`. -/
def handleRequest (r : HttpRequest) : HttpResponse :=
  if r.method = "POST" then do_POST r
  else if r.method = "OPTIONS" then do_OPTIONS r
  else send_error 501 ("Unsupported method " ++ r.method)

/-- The HTTP server serving a sequence of requests: each request is
handled by a fresh handler instance with no state carried over, so the
run is the per-request function mapped over the sequence. -/
def serveHttp (rs : List HttpRequest) : List HttpResponse :=
  rs.map handleRequest

example : (handleRequest ⟨"POST", ("/trigger").toList, "body"⟩).status = 200 := by decide
example : (handleRequest ⟨"POST", ("/other").toList, ""⟩).status = 404 := by decide
example : (handleRequest ⟨"GET", ("/trigger").toList, ""⟩).status = 501 := by decide
example : (handleRequest ⟨"OPTIONS", ("/any").toList, ""⟩).status = 200 := by decide
example : (handleRequest ⟨"POST", ("//evil/trigger").toList, ""⟩).status = 200 := by decide
example : (handleRequest ⟨"POST", ("x:/trigger").toList, ""⟩).status = 200 := by decide

lemma udpRun_length (t : Nat) (arr : List (Nat × Datagram)) :
    (udpRun t arr).length = 2 * arr.length := by
  induction arr generalizing t with
  | nil => rfl
  | cons hd rest ih =>
      obtain ⟨ta, d⟩ := hd
      simp [udpRun, udpStep, ih]
      omega

lemma udpRun_cycle (t : Nat) (arr : List (Nat × Datagram)) (i : Nat)
    (h : i < arr.length) :
    ∃ s, (udpRun t arr)[2 * i]? = some ⟨arr[i].2.addr, 1, s⟩ ∧
      (udpRun t arr)[2 * i + 1]? = some ⟨arr[i].2.addr, 0, s + udpDelayMs⟩ := by
  induction arr generalizing t i with
  | nil => exact absurd h (Nat.not_lt_zero i)
  | cons hd rest ih =>
      obtain ⟨ta, d⟩ := hd
      cases i with
      | zero =>
          refine ⟨max t ta, ?_, ?_⟩ <;> simp [udpRun, udpStep]
      | succ j =>
          have h2 : j < rest.length := Nat.lt_of_succ_lt_succ h
          obtain ⟨s, h1, hB⟩ := ih (max t ta + udpDelayMs) j h2
          have e1 : 2 * (j + 1) = 2 * j + 1 + 1 := by omega
          have e2 : 2 * (j + 1) + 1 = 2 * j + 1 + 1 + 1 := by omega
          refine ⟨s, ?_, ?_⟩
          · rw [e1]
            simpa [udpRun, udpStep] using h1
          · rw [e2]
            simpa [udpRun, udpStep] using hB

/-- Sample sender address used to instantiate theorems at concrete inputs. -/
def addrA : Addr := ⟨"198.51.100.7", 40000⟩

/-- Second sample sender address. -/
def addrB : Addr := ⟨"203.0.113.9", 55123⟩

/-- Sample inbound datagram from `addrA`. -/
def dgA : Datagram := ⟨addrA, [171, 205]⟩

/-- Sample inbound datagram from `addrB`. -/
def dgB : Datagram := ⟨addrB, [1, 2, 3]⟩

/-- C1: for every inbound UDP datagram, the responder sends exactly two
reply datagrams to the sender address, in order: first the byte `0x01`,
then the byte `0x00`, with the `0x00` reply sent exactly the configured
delay after the `0x01` reply (so no earlier than it).  Formally: a run
over any datagram schedule emits two sends per datagram, and the two
sends of the i-th datagram go to its sender, carry bytes 1 then 0, and
are `udpDelayMs` apart. -/
theorem udp_exactly_two_replies (t : Nat) (arr : List (Nat × Datagram)) :
    (udpRun t arr).length = 2 * arr.length ∧
    ∀ i (h : i < arr.length), ∃ s,
      (udpRun t arr)[2 * i]? = some ⟨arr[i].2.addr, 1, s⟩ ∧
      (udpRun t arr)[2 * i + 1]? = some ⟨arr[i].2.addr, 0, s + udpDelayMs⟩ :=
  ⟨udpRun_length t arr, fun i h => udpRun_cycle t arr i h⟩

/-- Witness for C1 at a concrete one-datagram schedule. -/
theorem udp_exactly_two_replies_witness :
    (udpRun 0 [(0, dgA)]).length = 2 * [(0, dgA)].length ∧
    (∃ s, (udpRun 0 [(0, dgA)])[2 * 0]? = some ⟨[(0, dgA)][0].2.addr, 1, s⟩ ∧
      (udpRun 0 [(0, dgA)])[2 * 0 + 1]? =
        some ⟨[(0, dgA)][0].2.addr, 0, s + udpDelayMs⟩) :=
  ⟨(udp_exactly_two_replies 0 [(0, dgA)]).1,
   (udp_exactly_two_replies 0 [(0, dgA)]).2 0 (by decide)⟩

/-- C4: two datagrams arriving back-to-back (the second before the first
datagram's delay elapses) are strictly serialized: the run is exactly the
first sender's `0x01` and `0x00` replies followed by the second sender's,
and the second datagram is read off the socket only when the first
datagram's send/delay/send sequence has completed, so the second sender's
first reply is sent at (not before) the completion time of the first
sequence. -/
theorem udp_serialized_back_to_back (t t1 t2 : Nat) (d1 d2 : Datagram)
    (h : t2 < max t t1 + udpDelayMs) :
    udpRun t [(t1, d1), (t2, d2)] =
      [⟨d1.addr, 1, max t t1⟩, ⟨d1.addr, 0, max t t1 + udpDelayMs⟩,
       ⟨d2.addr, 1, max t t1 + udpDelayMs⟩,
       ⟨d2.addr, 0, max t t1 + udpDelayMs + udpDelayMs⟩] := by
  have hm : max (max t t1 + udpDelayMs) t2 = max t t1 + udpDelayMs :=
    Nat.max_eq_left h.le
  simp [udpRun, udpStep, hm]

/-- Witness for C4: the second datagram arrives 100 ms in, during the
first datagram's delay window. -/
theorem udp_serialized_back_to_back_witness :
    udpRun 0 [(0, dgA), (100, dgB)] =
      [⟨dgA.addr, 1, max 0 0⟩, ⟨dgA.addr, 0, max 0 0 + udpDelayMs⟩,
       ⟨dgB.addr, 1, max 0 0 + udpDelayMs⟩,
       ⟨dgB.addr, 0, max 0 0 + udpDelayMs + udpDelayMs⟩] :=
  udp_serialized_back_to_back 0 0 100 dgA dgB (by decide)

/-- C5: the delay the code blocks on between the two sends is 0.5 s
(500 ms), which differs from the 1 s the script docstring states. -/
theorem udp_delay_is_half_second :
    udpDelayMs = 500 ∧ docstringDelayMs = 1000 ∧
    udpDelayMs ≠ docstringDelayMs := by
  decide

/-- The observable shape of the i-th reply cycle of a UDP run: the
destinations and byte values of its two sends and the time between them,
i.e. the cycle's behavior relative to its own start. -/
def relCycle (run : List Send) (i : Nat) : Option (Addr × Nat × Addr × Nat × Nat) :=
  match run[2 * i]?, run[2 * i + 1]? with
  | some e1, some e2 => some (e1.dest, e1.byte, e2.dest, e2.byte, e2.time - e1.time)
  | _, _ => none

/-- Sample trigger request used to instantiate theorems. -/
def reqTrig : HttpRequest := ⟨"POST", ("/trigger").toList, ""⟩

/-- C7: no state persists between trigger cycles in either responder.
The HTTP server's response to the i-th request of any request sequence
equals its response when the same request is served first and alone; and
the i-th reply cycle of any UDP run, viewed relative to its own start,
equals the cycle produced when the same datagram is the first and only
one processed. -/
theorem no_state_between_cycles :
    (∀ (rs : List HttpRequest) (i : Nat) (h : i < rs.length),
        (serveHttp rs)[i]? = (serveHttp [rs[i]])[0]?) ∧
    (∀ (t : Nat) (arr : List (Nat × Datagram)) (i : Nat) (h : i < arr.length),
        relCycle (udpRun t arr) i = relCycle (udpRun 0 [(0, arr[i].2)]) 0) := by
  constructor
  · intro rs i h
    simp [serveHttp]
    exact ⟨rs[i], List.getElem?_eq_getElem h, rfl⟩
  · intro t arr i h
    obtain ⟨s, h1, h2⟩ := udpRun_cycle t arr i h
    obtain ⟨s2, g1, g2⟩ := udpRun_cycle 0 [(0, arr[i].2)] 0 (by simp)
    simp only [Nat.mul_zero, Nat.zero_add] at g1 g2
    simp [relCycle, h1, h2, g1, g2]

/-- Witness for C7: the second of two identical requests and the second
of two identical datagrams behave as the first and only one would. -/
theorem no_state_between_cycles_witness :
    (serveHttp [reqTrig, reqTrig])[1]? =
      (serveHttp [[reqTrig, reqTrig][1]])[0]? ∧
    relCycle (udpRun 0 [(0, dgA), (600, dgA)]) 1 =
      relCycle (udpRun 0 [(0, [(0, dgA), (600, dgA)][1].2)]) 0 :=
  ⟨no_state_between_cycles.1 [reqTrig, reqTrig] 1 (by decide),
   no_state_between_cycles.2 0 [(0, dgA), (600, dgA)] 1 (by decide)⟩

/-- C8: the UDP responder's replies are independent of the datagram
payload.  A loop iteration's sends and resulting clock are the same for
any two payloads from the same sender; the full iteration output
(including its log lines) depends on the payload only through its hex
rendering; and a whole run's sends are unchanged by any transformation of
the payloads in the schedule. -/
theorem udp_payload_independent :
    (∀ (t : Nat) (a : Addr) (p1 p2 : List Nat),
        (udpStep t ⟨a, p1⟩).1 = (udpStep t ⟨a, p2⟩).1 ∧
        (udpStep t ⟨a, p1⟩).2.2 = (udpStep t ⟨a, p2⟩).2.2) ∧
    (∀ (t : Nat) (a : Addr) (p1 p2 : List Nat), bytesHex p1 = bytesHex p2 →
        udpStep t ⟨a, p1⟩ = udpStep t ⟨a, p2⟩) ∧
    (∀ (t : Nat) (f : List Nat → List Nat) (arr : List (Nat × Datagram)),
        udpRun t (arr.map fun p => (p.1, ⟨p.2.addr, f p.2.payload⟩)) =
          udpRun t arr) := by
  refine ⟨fun t a p1 p2 => ⟨rfl, rfl⟩,
          fun t a p1 p2 h => by simp [udpStep, h],
          fun t f arr => ?_⟩
  induction arr generalizing t with
  | nil => rfl
  | cons hd rest ih =>
      obtain ⟨ta, d⟩ := hd
      simp [udpRun, udpStep, ih]

/-- Witness for C8 at concrete payloads. -/
theorem udp_payload_independent_witness :
    ((udpStep 0 ⟨addrA, [0]⟩).1 = (udpStep 0 ⟨addrA, [255]⟩).1 ∧
     (udpStep 0 ⟨addrA, [0]⟩).2.2 = (udpStep 0 ⟨addrA, [255]⟩).2.2) ∧
    udpStep 0 ⟨addrA, [7]⟩ = udpStep 0 ⟨addrA, [7]⟩ ∧
    udpRun 0 ([(0, dgA)].map fun p => (p.1, ⟨p.2.addr, [9] ++ p.2.payload⟩)) =
      udpRun 0 [(0, dgA)] :=
  ⟨udp_payload_independent.1 0 addrA [0] [255],
   udp_payload_independent.2.1 0 addrA [7] [7] rfl,
   udp_payload_independent.2.2 0 (fun p => [9] ++ p) [(0, dgA)]⟩

/-- Sample OPTIONS request. -/
def reqOpt : HttpRequest := ⟨"OPTIONS", ("/anything").toList, ""⟩

/-- C6: every OPTIONS request, on any path, is answered with status 200,
the CORS headers, and an empty body. -/
theorem options_any_path_ok (r : HttpRequest) (hm : r.method = "OPTIONS") :
    (handleRequest r).status = 200 ∧
    corsHeaders ⊆ (handleRequest r).headers ∧
    (handleRequest r).body = "" := by
  have hr : handleRequest r = do_OPTIONS r := by
    simp [handleRequest, hm]
  rw [hr]
  exact ⟨rfl, List.Subset.refl _, rfl⟩

/-- Witness for C6 at a concrete OPTIONS request. -/
theorem options_any_path_ok_witness :
    (handleRequest reqOpt).status = 200 ∧
    corsHeaders ⊆ (handleRequest reqOpt).headers ∧
    (handleRequest reqOpt).body = "" :=
  options_any_path_ok reqOpt (by decide)

lemma takeUntil_append_of_not_mem (c : Char) (l1 l2 : List Char)
    (h : c ∉ l1) :
    takeUntil c (l1 ++ l2) = l1 ++ takeUntil c l2 := by
  induction l1 with
  | nil => rfl
  | cons x xs ih =>
      rw [List.mem_cons, not_or] at h
      have hx : ¬ x = c := fun hh => h.1 hh.symm
      simp [takeUntil, hx, ih h.2]

lemma takeUntil_append_cons (c : Char) (l1 l2 : List Char) (h : c ∉ l1) :
    takeUntil c (l1 ++ c :: l2) = l1 := by
  rw [takeUntil_append_of_not_mem c l1 (c :: l2) h]
  simp [takeUntil]

lemma dropScheme_slash (rest : List Char) :
    dropScheme ('/' :: rest) = '/' :: rest := by
  have hne : ¬ ('/' : Char) = ':' := by decide
  have hal : isAsciiAlpha '/' = false := by decide
  cases hsp : splitFirst ':' rest with
  | none => simp [dropScheme, splitFirst, hne, hsp]
  | some p =>
      obtain ⟨a, b⟩ := p
      simp [dropScheme, splitFirst, hne, hsp, hal]

lemma dropNetloc_not_double (a b : Char) (l : List Char)
    (h : ¬ (a = '/' ∧ b = '/')) :
    dropNetloc (a :: b :: l) = a :: b :: l := by
  simp only [dropNetloc]
  rw [if_neg h]

lemma urlparsePath_origin (c : Char) (l : List Char) (h : ¬ c = '/') :
    urlparsePath ('/' :: c :: l) =
      dropParams (takeUntil '?' (takeUntil '#' ('/' :: c :: l))) := by
  unfold urlparsePath
  rw [dropScheme_slash, dropNetloc_not_double '/' c l (fun hc => h hc.2)]

lemma urlparsePath_trigger_query (q : List Char) :
    urlparsePath (("/trigger?").toList ++ q) = ("/trigger").toList := by
  have e1 : ("/trigger?").toList ++ q = '/' :: 't' :: (("rigger?").toList ++ q) :=
    rfl
  rw [e1, urlparsePath_origin 't' _ (by decide), ← e1]
  rw [takeUntil_append_of_not_mem '#' (("/trigger?").toList) q (by decide)]
  rw [show ("/trigger?").toList = ("/trigger").toList ++ ['?'] from by decide]
  rw [List.append_assoc, List.singleton_append]
  rw [takeUntil_append_cons '?' (("/trigger").toList) _ (by decide)]
  decide

/-- C10: POST path matching ignores the query string (and fragment),
because the request target is parsed with `urlparse` before comparison:
for any query-string suffix, the parsed path of `/trigger?...` is
`/trigger`, and the request is answered 200 with body `OK`. -/
theorem post_query_string_ignored :
    (∀ q : List Char,
        urlparsePath (("/trigger?").toList ++ q) = ("/trigger").toList) ∧
    (∀ (q : List Char) (b : String),
        (handleRequest ⟨"POST", ("/trigger?").toList ++ q, b⟩).status = 200 ∧
        (handleRequest ⟨"POST", ("/trigger?").toList ++ q, b⟩).body = "OK") := by
  refine ⟨urlparsePath_trigger_query, fun q b => ?_⟩
  have hr : handleRequest ⟨"POST", ("/trigger?").toList ++ q, b⟩ =
      handle_trigger ⟨"POST", ("/trigger?").toList ++ q, b⟩ := by
    unfold handleRequest do_POST
    rw [if_pos rfl, if_pos (urlparsePath_trigger_query q)]
  rw [hr]
  exact ⟨rfl, rfl⟩
